import Mathlib

/-!
Verification of the client-side navigation script of the Tchiav's Excellence
site (`src/js/main.js`), as a shallow embedding in Lean 4.

The script installs a click handler that intercepts in-site link clicks
(`App.setupRouter`), a `popstate` handler replaying stored navigation states,
and a page loader `App.handlePageLoad` that fetches a page, swaps the
`#main-content` container's inner markup, and falls back to a literal
"Erreur 404" view on any failure.  The testimonial carousel's index
arithmetic (`App.initTestimonialCarousel`) is embedded as well.

Modelling conventions:
* the DOM state relevant to the script is a `Doc`: document title, the
  optional `#main-content` element (inner markup plus class list), the
  shell links targeted by `updateActiveLink` (`header nav a, footer a`),
  the current location, and the scroll position;
* network/environment behaviour is a parameter `env : String → FetchOutcome`
  combining `fetch` and `DOMParser.parseFromString` (both external to the
  repository): for each path it yields a network error or a response with
  its `ok` flag and the parsed document's title and optional
  `#main-content` inner markup;
* `runPageSpecificScripts` re-initialises widgets whose ids live inside the
  page content region; its synchronous DOM effect is a parameter
  `ws : String → String` acting on the container's inner markup;
* each operation additionally returns the list of effects it performed, in
  order, so that ordering claims are provable;
* JavaScript exceptions are modelled with `Except`: the body of the
  `try` in `handlePageLoad` either returns or throws, and the `catch`
  renders the fallback view, so the Lean `handlePageLoad` is total.
-/

/-- An `<a>` element as destructured by the click handler
(`const { protocol, host, pathname, hash } = link` plus
`link.target` and `link.search`). -/
structure LinkEl where
  target : String
  protocol : String
  host : String
  pathname : String
  search : String
  hash : String
  deriving DecidableEq, Repr

/-- The relevant fields of `window.location`. -/
structure Location where
  protocol : String
  host : String
  pathname : String
  search : String
  deriving DecidableEq, Repr

/-- A click event as seen by the handler: the nearest ancestor link of the
click target (`e.target.closest('a')`, `none` when there is no such link)
and the keyboard modifier flags, which the handler never reads. -/
structure ClickEvent where
  link : Option LinkEl
  ctrlKey : Bool
  metaKey : Bool
  shiftKey : Bool
  altKey : Bool
  deriving DecidableEq, Repr

/-- Observable outcome of one run of the click handler: whether
`e.preventDefault()` was called, the paths pushed via `history.pushState`
(each pushed state carries `{path}`), and the paths passed to
`handlePageLoad`. -/
structure ClickOutcome where
  prevented : Bool
  pushed : List String
  loads : List String
  deriving DecidableEq, Repr

/-- The click handler installed by `App.setupRouter` (main.js lines 46-71).
Returns without effect when there is no ancestor link, when the link is
external (`target === '_blank'`, or protocol or host differing from the
current location), or when it is a same-page anchor (non-empty hash and
pathname equal to the current pathname).  Otherwise it prevents the default
navigation and, when the link's path+query differs from the current one,
pushes a history entry and loads the page. -/
def interceptClick (loc : Location) (e : ClickEvent) : ClickOutcome :=
  match e.link with
  | none => ⟨false, [], []⟩
  | some link =>
    let isExternal : Bool :=
      link.target == "_blank" || link.protocol != loc.protocol || link.host != loc.host
    let isAnchor : Bool := link.hash != "" && link.pathname == loc.pathname
    if isExternal || isAnchor then ⟨false, [], []⟩
    else
      let newPath := link.pathname ++ link.search
      if newPath != loc.pathname ++ loc.search then ⟨true, [newPath], [newPath]⟩
      else ⟨true, [], []⟩

/-- `element.classList.add c`: appends `c` unless already present. -/
def classListAdd (cs : List String) (c : String) : List String :=
  if c ∈ cs then cs else cs ++ [c]

/-- `element.classList.remove c`: removes every occurrence of `c`. -/
def classListRemove (cs : List String) (c : String) : List String :=
  cs.filter (fun x => x ≠ c)

/-- The `#main-content` container element: its inner markup and class list. -/
structure MainEl where
  innerHTML : String
  classes : List String
  deriving DecidableEq, Repr

/-- A shell link matched by `document.querySelectorAll('header nav a, footer a')`:
its href's pathname and its class list. -/
structure NavLink where
  pathname : String
  classes : List String
  deriving DecidableEq, Repr

/-- The DOM state the script reads and writes. -/
structure Doc where
  title : String
  mainContent : Option MainEl
  shellLinks : List NavLink
  locationPath : String
  locationSearch : String
  scrollX : Nat
  scrollY : Nat
  deriving DecidableEq, Repr

/-- The parsed form of a fetched document: `doc.title` and the inner markup
of `doc.querySelector('#main-content')` (`none` when that query returns
`null`). -/
structure PDoc where
  title : String
  mainInner : Option String
  deriving DecidableEq, Repr

/-- Outcome of `fetch(path)` followed by parsing: a network error (the
fetch promise rejects) or a response with its `ok` flag and parsed body. -/
inductive FetchOutcome where
  | networkError
  | response (ok : Bool) (pdoc : PDoc)
  deriving DecidableEq, Repr

/-- One observable effect performed by the page loader, in program order. -/
inductive Eff where
  | logError (msg : String)
  | addClass (c : String)
  | fetchReq (path : String)
  | setTitle (t : String)
  | setInner (s : String)
  | runScripts
  | updateActive
  | scrollTo (x y : Nat)
  | removeClass (c : String)
  deriving DecidableEq, Repr

/-- `App.updateActiveLink` (main.js lines 124-135): on every shell link,
adds the class `nav-link-active` when the link's pathname equals the
current location's pathname and removes it otherwise. -/
def updateActiveLink (d : Doc) : Doc :=
  { d with shellLinks := d.shellLinks.map (fun l =>
      if l.pathname = d.locationPath then
        { l with classes := classListAdd l.classes "nav-link-active" }
      else
        { l with classes := classListRemove l.classes "nav-link-active" }) }

/-- The literal fallback markup assigned to `mainContent.innerHTML` in the
`catch` block of `handlePageLoad` (main.js lines 114-118). -/
def notFoundHTML : String :=
  "<div class=\"text-center py-20\">\n                <h1 class=\"text-4xl font-bold\">Erreur 404</h1>\n                <p class=\"mt-4\">La page que vous cherchez n\x27a pas pu être trouvée.</p>\n                <a href=\"/\" class=\"mt-6 inline-block text-emerald-500 hover:underline\">Retour à l\x27accueil</a>\n            </div>"

/-- The body of the `try` in `handlePageLoad` (main.js lines 92-110), after
the fade-out class has been added.  `d1` is the document with the fade-out
class added to the container, `tr0` the effects performed so far.  A thrown
exception (`.error`) carries the document and trace at the throw point:
note the title has already been assigned when `doc.querySelector` returns
`null` and the `.innerHTML` access throws a TypeError. -/
def pageLoadTry (env : String → FetchOutcome) (ws : String → String)
    (path : String) (d1 : Doc) (tr0 : List Eff) :
    Except (Doc × List Eff) (Doc × List Eff) :=
  let tr1 := tr0 ++ [Eff.fetchReq path]
  match env path with
  | FetchOutcome.networkError => Except.error (d1, tr1)
  | FetchOutcome.response ok pdoc =>
    if !ok then Except.error (d1, tr1)
    else
      let d2 := { d1 with title := pdoc.title }
      let tr2 := tr1 ++ [Eff.setTitle pdoc.title]
      match pdoc.mainInner with
      | none => Except.error (d2, tr2)
      | some inner =>
        let swap := fun (m : MainEl) => { m with innerHTML := inner }
        let d3 := { d2 with mainContent := d2.mainContent.map swap }
        let widget := fun (m : MainEl) => { m with innerHTML := ws m.innerHTML }
        let d4 := { d3 with mainContent := d3.mainContent.map widget }
        let d5 := updateActiveLink d4
        let d6 := { d5 with scrollX := 0, scrollY := 0 }
        let unfade := fun (m : MainEl) =>
          { m with classes := classListRemove m.classes "page-fade-out" }
        let d7 := { d6 with mainContent := d6.mainContent.map unfade }
        Except.ok (d7, tr2 ++ [Eff.setInner inner, Eff.runScripts, Eff.updateActive,
          Eff.scrollTo 0 0, Eff.removeClass "page-fade-out"])

/-- `App.handlePageLoad` (main.js lines 82-121).  Returns the new DOM state
and the ordered list of effects performed.  When `#main-content` is absent
it logs and returns; otherwise it adds the fade-out class, runs the `try`
body, and on any thrown failure renders the literal fallback view in the
container and removes the fade-out class. -/
def handlePageLoad (env : String → FetchOutcome) (ws : String → String)
    (path : String) (d : Doc) : Doc × List Eff :=
  match d.mainContent with
  | none => (d, [Eff.logError "Main content container #main-content not found!"])
  | some mc =>
    let mc1 : MainEl := { mc with classes := classListAdd mc.classes "page-fade-out" }
    let d1 := { d with mainContent := some mc1 }
    let tr0 := [Eff.addClass "page-fade-out"]
    match pageLoadTry env ws path d1 tr0 with
    | Except.ok r => r
    | Except.error (de, tre) =>
      let fallback := fun (m : MainEl) =>
        { m with innerHTML := notFoundHTML,
                 classes := classListRemove m.classes "page-fade-out" }
      let df := { de with mainContent := de.mainContent.map fallback }
      (df, tre ++ [Eff.logError "Failed to load page",
        Eff.setInner notFoundHTML, Eff.removeClass "page-fade-out"])

/-- A `popstate` event's state object: `null`, or an object whose `path`
field is absent (`none`) or a string (empty strings are falsy in the
`e.state && e.state.path` guard). -/
structure PopStateState where
  path : Option String
  deriving DecidableEq, Repr

/-- The `popstate` handler installed by `App.setupRouter`
(main.js lines 74-78): when the event state carries a truthy `path`,
replay `handlePageLoad` with it; otherwise do nothing. -/
def onPopState (env : String → FetchOutcome) (ws : String → String)
    (state : Option PopStateState) (d : Doc) : Doc × List Eff :=
  match state with
  | none => (d, [])
  | some s =>
    match s.path with
    | none => (d, [])
    | some p => if p ≠ "" then handlePageLoad env ws p d else (d, [])

/-- Whether the character list `p` is an initial segment of `l`. -/
def startsWithSeq : List Char → List Char → Bool
  | _, [] => true
  | [], _ :: _ => false
  | a :: l, b :: p => a == b && startsWithSeq l p

/-- Whether the character list `p` occurs contiguously inside `l`. -/
def containsSeq : List Char → List Char → Bool
  | l, p =>
    match l with
    | [] => p.isEmpty
    | _ :: t => startsWithSeq l p || containsSeq t p

/-- Whether `pat` occurs as a substring of `s`. -/
def strContains (s pat : String) : Bool :=
  containsSeq s.toList pat.toList

/-- A testimonial record from the literal array in
`App.initTestimonialCarousel` (main.js lines 249-273). -/
structure Testimonial where
  quote : String
  name : String
  title : String
  avatar : String
  deriving DecidableEq, Repr

/-- The literal testimonial data (main.js lines 249-273); one card is
rendered per record, so `testimonials.length` is the number of cards. -/
def testimonials : List Testimonial :=
  [{ quote := "L\x27accompagnement d\x27Impact\x27Oral a été un tournant. J\x27étais paralysé par le stress, mais j\x27ai appris à canaliser cette énergie pour livrer une présentation puissante. Mon jury a été bluffé. J\x27ai eu 18/20 !",
     name := "Ama",
     title := "Étudiante en Master Marketing",
     avatar := "https://placehold.co/100x100/e2e8f0/334155?text=A" },
   { quote := "Au-delà de la soutenance, ce coaching m\x27a servi pour mes entretiens d\x27embauche. J\x27ai gagné une confiance en moi incroyable. C\x27est un investissement pour la vie.",
     name := "Koffi",
     title := "Ingénieur Informatique Diplômé",
     avatar := "https://placehold.co/100x100/e2e8f0/334155?text=K" },
   { quote := "Le coaching m\x27a aidée à structurer ma pensée et à présenter mes recherches complexes de manière claire et accessible. Une compétence essentielle pour ma carrière de chercheuse.",
     name := "Sarah",
     title := "Doctorante en Biologie",
     avatar := "https://placehold.co/100x100/e2e8f0/334155?text=S" },
   { quote := "J\x27ai vaincu ma peur de parler en public. Les simulations m\x27ont donné la confiance nécessaire pour être à l\x27aise et même prendre du plaisir pendant ma soutenance.",
     name := "David",
     title := "Licence en Économie",
     avatar := "https://placehold.co/100x100/e2e8f0/334155?text=D" }]

/-- The carousel's `next` (main.js lines 320-323):
`currentIndex = (currentIndex + 1) % cards.length`.  JavaScript numbers are
modelled as `Int`; for the in-range indices the dividend `i + 1` is
nonnegative, where JavaScript's remainder agrees with `Int.emod`. -/
def carouselNext (len : Nat) (i : Int) : Int :=
  (i + 1) % (len : Int)

/-- The carousel's `prev` (main.js lines 324-327):
`currentIndex = (currentIndex - 1 + cards.length) % cards.length`.
For in-range indices the dividend `i - 1 + len` is nonnegative, where
JavaScript's remainder agrees with `Int.emod`. -/
def carouselPrev (len : Nat) (i : Int) : Int :=
  (i - 1 + (len : Int)) % (len : Int)

/-! Concrete sample objects used by the witness theorems. -/

/-- A sample DOM state with a populated `#main-content` container. -/
def sampleDoc : Doc :=
  { title := "Accueil",
    mainContent := some { innerHTML := "<p>home</p>", classes := [] },
    shellLinks := [{ pathname := "/", classes := [] },
                   { pathname := "/contact", classes := ["nav-link-active"] }],
    locationPath := "/", locationSearch := "",
    scrollX := 0, scrollY := 120 }

/-- A sample DOM state without a `#main-content` container. -/
def bareDoc : Doc :=
  { title := "Accueil", mainContent := none, shellLinks := [],
    locationPath := "/", locationSearch := "", scrollX := 3, scrollY := 120 }

/-- An environment in which every fetch succeeds with a parsed document
that has a `#main-content` container. -/
def envOk : String → FetchOutcome :=
  fun _ => FetchOutcome.response true { title := "Contact", mainInner := some "<p>new</p>" }

/-- An environment in which every fetch rejects with a network error. -/
def envErr : String → FetchOutcome :=
  fun _ => FetchOutcome.networkError

/-- An environment in which every fetch succeeds but the parsed document
lacks a `#main-content` container. -/
def envNoContainer : String → FetchOutcome :=
  fun _ => FetchOutcome.response true { title := "T", mainInner := none }

/-- C1: for a click on an in-site link (an ancestor link exists, no
modifier keys, target not `_blank`, protocol and host equal to the current
location, not a same-page anchor), the handler calls `preventDefault`, and
it pushes one history entry and invokes `handlePageLoad` exactly once with
the link path+query when that differs from the current path+query (and not
at all otherwise). -/
theorem interceptClick_in_site (loc : Location) (e : ClickEvent) (l : LinkEl)
    (hl : e.link = some l)
    (_hm : e.ctrlKey = false ∧ e.metaKey = false ∧ e.shiftKey = false ∧ e.altKey = false)
    (hb : l.target ≠ "_blank")
    (hp : l.protocol = loc.protocol)
    (hh : l.host = loc.host)
    (ha : ¬(l.hash ≠ "" ∧ l.pathname = loc.pathname)) :
    (interceptClick loc e).prevented = true ∧
    (interceptClick loc e).loads =
      (if l.pathname ++ l.search ≠ loc.pathname ++ loc.search
        then [l.pathname ++ l.search] else []) ∧
    (interceptClick loc e).pushed =
      (if l.pathname ++ l.search ≠ loc.pathname ++ loc.search
        then [l.pathname ++ l.search] else []) := by
  have hext : (l.target == "_blank" || l.protocol != loc.protocol
      || l.host != loc.host) = false := by
    simp [hb, hp, hh]
  have hanch : (l.hash != "" && l.pathname == loc.pathname) = false := by
    rcases not_and_or.mp ha with h | h
    · have h0 : l.hash = "" := by simpa using h
      simp [h0]
    · simp [h]
  by_cases hne : l.pathname ++ l.search = loc.pathname ++ loc.search <;>
    simp [interceptClick, hl, hext, hanch, hne]

/-- The current location used by the witness click events. -/
def wLoc : Location :=
  { protocol := "https:", host := "x.org", pathname := "/", search := "" }

/-- A same-origin link to `/contact` with no target and no hash. -/
def wLink : LinkEl :=
  { target := "", protocol := "https:", host := "x.org",
    pathname := "/contact", search := "", hash := "" }

/-- A modifier-free click on `wLink`. -/
def wEvent : ClickEvent :=
  { link := some wLink, ctrlKey := false, metaKey := false,
    shiftKey := false, altKey := false }

/-- C1 witness: a concrete in-site click on `/contact` from `/`. -/
theorem interceptClick_in_site_witness :
    wEvent.link = some wLink ∧
    wLink.target ≠ "_blank" ∧
    ¬(wLink.hash ≠ "" ∧ wLink.pathname = wLoc.pathname) ∧
    ((interceptClick wLoc wEvent).prevented = true ∧
      (interceptClick wLoc wEvent).loads =
        (if wLink.pathname ++ wLink.search ≠ wLoc.pathname ++ wLoc.search
          then [wLink.pathname ++ wLink.search] else []) ∧
      (interceptClick wLoc wEvent).pushed =
        (if wLink.pathname ++ wLink.search ≠ wLoc.pathname ++ wLoc.search
          then [wLink.pathname ++ wLink.search] else [])) :=
  ⟨rfl, by decide, by decide,
   interceptClick_in_site wLoc wEvent wLink rfl
     ⟨rfl, rfl, rfl, rfl⟩ (by decide) rfl rfl (by decide)⟩

/-- C7: a click on a same-page anchor link (non-empty hash, pathname equal
to the current pathname) is not intercepted: no `preventDefault`, no
history push, no `handlePageLoad` call, so default browser anchor-scroll
behaviour applies. -/
theorem interceptClick_same_page_anchor (loc : Location) (e : ClickEvent) (l : LinkEl)
    (hl : e.link = some l)
    (hhash : l.hash ≠ "")
    (hpath : l.pathname = loc.pathname) :
    interceptClick loc e = { prevented := false, pushed := [], loads := [] } := by
  have hanch : (l.hash != "" && l.pathname == loc.pathname) = true := by
    simp [hhash, hpath]
  simp [interceptClick, hl, hanch]

/-- An anchor link `#team` on the current page, used by the C7 witness. -/
def wAnchorLink : LinkEl :=
  { target := "", protocol := "https:", host := "x.org",
    pathname := "/", search := "", hash := "#team" }

/-- A click on `wAnchorLink`. -/
def wAnchorEvent : ClickEvent :=
  { link := some wAnchorLink, ctrlKey := false, metaKey := false,
    shiftKey := false, altKey := false }

/-- C7 witness: a concrete same-page anchor click is left to the browser. -/
theorem interceptClick_same_page_anchor_witness :
    wAnchorEvent.link = some wAnchorLink ∧
    wAnchorLink.hash ≠ "" ∧
    wAnchorLink.pathname = wLoc.pathname ∧
    interceptClick wLoc wAnchorEvent = { prevented := false, pushed := [], loads := [] } :=
  ⟨rfl, by decide, rfl,
   interceptClick_same_page_anchor wLoc wAnchorEvent wAnchorLink rfl (by decide) rfl⟩

/-- C10: the click-interception decision never reads the modifier flags:
two click events with the same resolved link but any modifier flags yield
identical outcomes (same suppression, same history pushes, same loads). -/
theorem interceptClick_modifier_independent (loc : Location) (e1 e2 : ClickEvent)
    (hlink : e1.link = e2.link) :
    interceptClick loc e1 = interceptClick loc e2 := by
  simp only [interceptClick, hlink]

/-- The witness click for C10: same link as `wEvent` but with every
modifier flag set. -/
def wEventMods : ClickEvent :=
  { link := some wLink, ctrlKey := true, metaKey := true,
    shiftKey := true, altKey := true }

/-- C10 witness: a modifier-free click and an all-modifiers click on the
same link produce the same outcome. -/
theorem interceptClick_modifier_independent_witness :
    wEvent.link = wEventMods.link ∧
    interceptClick wLoc wEvent = interceptClick wLoc wEventMods :=
  ⟨rfl, interceptClick_modifier_independent wLoc wEvent wEventMods rfl⟩

/-- C9: when the current document has no `#main-content` element,
`handlePageLoad` only logs an error and returns: the DOM state is returned
unchanged (content, title, classes, scroll, shell, location) and the
effect trace is exactly the log entry, so no fetch is performed. -/
theorem handlePageLoad_no_container (env : String → FetchOutcome) (ws : String → String)
    (path : String) (d : Doc)
    (hmc : d.mainContent = none) :
    handlePageLoad env ws path d =
      (d, [Eff.logError "Main content container #main-content not found!"]) := by
  simp [handlePageLoad, hmc]

/-- C9 witness: loading any path on `bareDoc` changes nothing and only
logs. -/
theorem handlePageLoad_no_container_witness :
    bareDoc.mainContent = none ∧
    handlePageLoad envOk (fun s => s) "/contact" bareDoc =
      (bareDoc, [Eff.logError "Main content container #main-content not found!"]) :=
  ⟨rfl, handlePageLoad_no_container envOk (fun s => s) "/contact" bareDoc rfl⟩

/-- C5: a `popstate` event whose state carries a truthy `path` replays
`handlePageLoad` with that path, yielding the identical resulting DOM
state and effect trace; a state that is `null`, lacks the `path` field or
carries an empty (falsy) `path` is ignored: no load, no DOM mutation, no
effects. -/
theorem onPopState_replays (env : String → FetchOutcome) (ws : String → String)
    (d : Doc) (p : String) (state : Option PopStateState)
    (hstate : state = some { path := some p })
    (hp : p ≠ "") :
    onPopState env ws state d = handlePageLoad env ws p d ∧
    (∀ s : Option PopStateState,
      s = none ∨ s = some { path := none } ∨ s = some { path := some "" } →
      onPopState env ws s d = (d, [])) := by
  constructor
  · simp [onPopState, hstate, hp]
  · rintro s (rfl | rfl | rfl) <;> simp [onPopState]

/-- C5 witness: replaying state `{path := "/contact"}` on `sampleDoc`
equals the direct `handlePageLoad` call, and the degenerate states are
ignored. -/
theorem onPopState_replays_witness :
    (some { path := some "/contact" } : Option PopStateState) =
      some { path := some "/contact" } ∧
    "/contact" ≠ "" ∧
    (onPopState envOk (fun s => s) (some { path := some "/contact" }) sampleDoc =
        handlePageLoad envOk (fun s => s) "/contact" sampleDoc ∧
      (∀ s : Option PopStateState,
        s = none ∨ s = some { path := none } ∨ s = some { path := some "" } →
        onPopState envOk (fun s => s) s sampleDoc = (sampleDoc, []))) :=
  ⟨rfl, by decide,
   onPopState_replays envOk (fun s => s) sampleDoc "/contact"
     (some { path := some "/contact" }) rfl (by decide)⟩

/-- C2: when the fetch for `path` rejects with a network error or returns
a non-ok response, `handlePageLoad` never throws: the failure is caught in
the `catch` block, the container is left populated with the literal
fallback markup (which contains the string `Erreur 404` and a link to `/`),
and the trace records the caught error.  Totality of `handlePageLoad`
models that no exception escapes the operation. -/
theorem handlePageLoad_failure_fallback (env : String → FetchOutcome)
    (ws : String → String) (path : String) (d : Doc) (mc : MainEl)
    (hmc : d.mainContent = some mc)
    (hfail : env path = FetchOutcome.networkError ∨
      ∃ pdoc, env path = FetchOutcome.response false pdoc) :
    (handlePageLoad env ws path d).1.mainContent =
      some { innerHTML := notFoundHTML,
             classes := classListRemove (classListAdd mc.classes "page-fade-out")
               "page-fade-out" } ∧
    (handlePageLoad env ws path d).2 =
      [Eff.addClass "page-fade-out", Eff.fetchReq path,
       Eff.logError "Failed to load page", Eff.setInner notFoundHTML,
       Eff.removeClass "page-fade-out"] ∧
    strContains notFoundHTML "Erreur 404" = true ∧
    strContains notFoundHTML "<a href=\"/\"" = true := by
  refine ⟨?_, ?_, by decide, by decide⟩ <;>
    rcases hfail with h | ⟨pdoc, h⟩ <;>
    simp [handlePageLoad, pageLoadTry, hmc, h]

/-- C2 witness: a simulated 404 on `/nonexistent` over `sampleDoc`. -/
theorem handlePageLoad_failure_fallback_witness :
    sampleDoc.mainContent = some { innerHTML := "<p>home</p>", classes := [] } ∧
    (envErr "/nonexistent" = FetchOutcome.networkError ∨
      ∃ pdoc, envErr "/nonexistent" = FetchOutcome.response false pdoc) ∧
    ((handlePageLoad envErr (fun s => s) "/nonexistent" sampleDoc).1.mainContent =
        some { innerHTML := notFoundHTML,
               classes := classListRemove (classListAdd [] "page-fade-out")
                 "page-fade-out" } ∧
      (handlePageLoad envErr (fun s => s) "/nonexistent" sampleDoc).2 =
        [Eff.addClass "page-fade-out", Eff.fetchReq "/nonexistent",
         Eff.logError "Failed to load page", Eff.setInner notFoundHTML,
         Eff.removeClass "page-fade-out"] ∧
      strContains notFoundHTML "Erreur 404" = true ∧
      strContains notFoundHTML "<a href=\"/\"" = true) :=
  ⟨rfl, Or.inl rfl,
   handlePageLoad_failure_fallback envErr (fun s => s) "/nonexistent" sampleDoc
     { innerHTML := "<p>home</p>", classes := [] } rfl (Or.inl rfl)⟩

/-- C3: when the fetch for `path` succeeds with ok status and the parsed
document has a `#main-content` element, `handlePageLoad` sets the document
title to the fetched title, replaces the container inner markup with the
fetched container markup (then lets page-specific widget initialisation
`ws` act on it), and resets the scroll position to the top; the effect
trace shows title update, content swap, widget re-initialisation and
scroll reset in exactly that order. -/
theorem handlePageLoad_success_updates (env : String → FetchOutcome)
    (ws : String → String) (path : String) (d : Doc) (mc : MainEl)
    (pdoc : PDoc) (inner : String)
    (hmc : d.mainContent = some mc)
    (henv : env path = FetchOutcome.response true pdoc)
    (hinner : pdoc.mainInner = some inner) :
    (handlePageLoad env ws path d).1.title = pdoc.title ∧
    (handlePageLoad env ws path d).1.mainContent =
      some { innerHTML := ws inner,
             classes := classListRemove (classListAdd mc.classes "page-fade-out")
               "page-fade-out" } ∧
    (handlePageLoad env ws path d).1.scrollX = 0 ∧
    (handlePageLoad env ws path d).1.scrollY = 0 ∧
    (handlePageLoad env ws path d).2 =
      [Eff.addClass "page-fade-out", Eff.fetchReq path, Eff.setTitle pdoc.title,
       Eff.setInner inner, Eff.runScripts, Eff.updateActive, Eff.scrollTo 0 0,
       Eff.removeClass "page-fade-out"] := by
  simp [handlePageLoad, pageLoadTry, hmc, henv, hinner, updateActiveLink]

/-- C3 witness: a successful load of `/contact` over `sampleDoc` with the
identity widget initialisation. -/
theorem handlePageLoad_success_updates_witness :
    sampleDoc.mainContent = some { innerHTML := "<p>home</p>", classes := [] } ∧
    envOk "/contact" =
      FetchOutcome.response true { title := "Contact", mainInner := some "<p>new</p>" } ∧
    ((handlePageLoad envOk (fun s => s) "/contact" sampleDoc).1.title = "Contact" ∧
      (handlePageLoad envOk (fun s => s) "/contact" sampleDoc).1.mainContent =
        some { innerHTML := (fun s => s) "<p>new</p>",
               classes := classListRemove (classListAdd [] "page-fade-out")
                 "page-fade-out" } ∧
      (handlePageLoad envOk (fun s => s) "/contact" sampleDoc).1.scrollX = 0 ∧
      (handlePageLoad envOk (fun s => s) "/contact" sampleDoc).1.scrollY = 0 ∧
      (handlePageLoad envOk (fun s => s) "/contact" sampleDoc).2 =
        [Eff.addClass "page-fade-out", Eff.fetchReq "/contact", Eff.setTitle "Contact",
         Eff.setInner "<p>new</p>", Eff.runScripts, Eff.updateActive, Eff.scrollTo 0 0,
         Eff.removeClass "page-fade-out"]) :=
  ⟨rfl, rfl,
   handlePageLoad_success_updates envOk (fun s => s) "/contact" sampleDoc
     { innerHTML := "<p>home</p>", classes := [] }
     { title := "Contact", mainInner := some "<p>new</p>" } "<p>new</p>" rfl rfl rfl⟩

/-- C6: when the fetch succeeds with ok status but the parsed document has
no `#main-content` element, the `.innerHTML` access on the null query
result throws; the `catch` renders the fallback error view in the current
container while the shell links and the scroll position are untouched, and
no exception escapes (totality).  Note the document title has already been
assigned before the throw. -/
theorem handlePageLoad_missing_target_container (env : String → FetchOutcome)
    (ws : String → String) (path : String) (d : Doc) (mc : MainEl) (pdoc : PDoc)
    (hmc : d.mainContent = some mc)
    (henv : env path = FetchOutcome.response true pdoc)
    (hinner : pdoc.mainInner = none) :
    (handlePageLoad env ws path d).1.mainContent =
      some { innerHTML := notFoundHTML,
             classes := classListRemove (classListAdd mc.classes "page-fade-out")
               "page-fade-out" } ∧
    (handlePageLoad env ws path d).1.shellLinks = d.shellLinks ∧
    (handlePageLoad env ws path d).1.scrollX = d.scrollX ∧
    (handlePageLoad env ws path d).1.scrollY = d.scrollY ∧
    (handlePageLoad env ws path d).2 =
      [Eff.addClass "page-fade-out", Eff.fetchReq path, Eff.setTitle pdoc.title,
       Eff.logError "Failed to load page", Eff.setInner notFoundHTML,
       Eff.removeClass "page-fade-out"] := by
  simp [handlePageLoad, pageLoadTry, hmc, henv, hinner]

/-- C6 witness: an ok response whose document lacks the container, over
`sampleDoc`. -/
theorem handlePageLoad_missing_target_container_witness :
    sampleDoc.mainContent = some { innerHTML := "<p>home</p>", classes := [] } ∧
    envNoContainer "/broken" =
      FetchOutcome.response true { title := "T", mainInner := none } ∧
    ((handlePageLoad envNoContainer (fun s => s) "/broken" sampleDoc).1.mainContent =
        some { innerHTML := notFoundHTML,
               classes := classListRemove (classListAdd [] "page-fade-out")
                 "page-fade-out" } ∧
      (handlePageLoad envNoContainer (fun s => s) "/broken" sampleDoc).1.shellLinks =
        sampleDoc.shellLinks ∧
      (handlePageLoad envNoContainer (fun s => s) "/broken" sampleDoc).1.scrollX =
        sampleDoc.scrollX ∧
      (handlePageLoad envNoContainer (fun s => s) "/broken" sampleDoc).1.scrollY =
        sampleDoc.scrollY ∧
      (handlePageLoad envNoContainer (fun s => s) "/broken" sampleDoc).2 =
        [Eff.addClass "page-fade-out", Eff.fetchReq "/broken", Eff.setTitle "T",
         Eff.logError "Failed to load page", Eff.setInner notFoundHTML,
         Eff.removeClass "page-fade-out"]) :=
  ⟨rfl, rfl,
   handlePageLoad_missing_target_container envNoContainer (fun s => s) "/broken"
     sampleDoc { innerHTML := "<p>home</p>", classes := [] }
     { title := "T", mainInner := none } rfl rfl rfl⟩

/-- C4 counterexample: a successful `handlePageLoad` does mutate the shell.
With current location `/` and a footer link to `/about` carrying the class
`nav-link-active`, a successful load removes that class via
`updateActiveLink`, so the shell link subtree is not left untouched. -/
theorem handlePageLoad_mutates_shell_cex :
    (handlePageLoad
        (fun _ => FetchOutcome.response true { title := "T", mainInner := some "X" })
        (fun s => s) "/x"
        { title := "t0",
          mainContent := some { innerHTML := "old", classes := [] },
          shellLinks := [{ pathname := "/about", classes := ["nav-link-active"] }],
          locationPath := "/", locationSearch := "",
          scrollX := 0, scrollY := 5 }).1.shellLinks ≠
      [{ pathname := "/about", classes := ["nav-link-active"] }] := by
  decide

/-- C4 (amended): a successful `handlePageLoad` leaves the shell untouched
except that `updateActiveLink` reconciles the class `nav-link-active` on
the header/footer links against the current location: every shell link
keeps its pathname and all of its other classes, gaining the class exactly
when its pathname equals the current pathname and losing it otherwise;
the location itself is not modified. -/
theorem handlePageLoad_success_shell_frame (env : String → FetchOutcome)
    (ws : String → String) (path : String) (d : Doc) (mc : MainEl)
    (pdoc : PDoc) (inner : String)
    (hmc : d.mainContent = some mc)
    (henv : env path = FetchOutcome.response true pdoc)
    (hinner : pdoc.mainInner = some inner) :
    (handlePageLoad env ws path d).1.locationPath = d.locationPath ∧
    (handlePageLoad env ws path d).1.locationSearch = d.locationSearch ∧
    (handlePageLoad env ws path d).1.shellLinks =
      d.shellLinks.map (fun l =>
        if l.pathname = d.locationPath then
          { l with classes := classListAdd l.classes "nav-link-active" }
        else
          { l with classes := classListRemove l.classes "nav-link-active" }) := by
  simp [handlePageLoad, pageLoadTry, hmc, henv, hinner, updateActiveLink]

/-- C4 witness: the amended frame property at a successful load of
`/contact` over `sampleDoc`. -/
theorem handlePageLoad_success_shell_frame_witness :
    sampleDoc.mainContent = some { innerHTML := "<p>home</p>", classes := [] } ∧
    envOk "/contact" =
      FetchOutcome.response true { title := "Contact", mainInner := some "<p>new</p>" } ∧
    ((handlePageLoad envOk (fun s => s) "/contact" sampleDoc).1.locationPath =
        sampleDoc.locationPath ∧
      (handlePageLoad envOk (fun s => s) "/contact" sampleDoc).1.locationSearch =
        sampleDoc.locationSearch ∧
      (handlePageLoad envOk (fun s => s) "/contact" sampleDoc).1.shellLinks =
        sampleDoc.shellLinks.map (fun l =>
          if l.pathname = sampleDoc.locationPath then
            { l with classes := classListAdd l.classes "nav-link-active" }
          else
            { l with classes := classListRemove l.classes "nav-link-active" })) :=
  ⟨rfl, rfl,
   handlePageLoad_success_shell_frame envOk (fun s => s) "/contact" sampleDoc
     { innerHTML := "<p>home</p>", classes := [] }
     { title := "Contact", mainInner := some "<p>new</p>" } "<p>new</p>" rfl rfl rfl⟩

/-- C8: with the four rendered testimonial cards
(`testimonials.length = 4`), `next` maps index `i` to `(i + 1) % 4` and
`prev` maps `i` to `(i - 1 + 4) % 4`; both keep the index in `[0, 3]`, and
they wrap at the boundaries: `next` from `3` yields `0` and `prev` from
`0` yields `3`. -/
theorem carousel_index_cycles (i : Int)
    (h0 : 0 ≤ i) (hlt : i < (testimonials.length : Int)) :
    (carouselNext testimonials.length i = (i + 1) % (testimonials.length : Int) ∧
      carouselPrev testimonials.length i =
        (i - 1 + (testimonials.length : Int)) % (testimonials.length : Int) ∧
      0 ≤ carouselNext testimonials.length i ∧
      carouselNext testimonials.length i < (testimonials.length : Int) ∧
      0 ≤ carouselPrev testimonials.length i ∧
      carouselPrev testimonials.length i < (testimonials.length : Int)) ∧
    carouselNext testimonials.length ((testimonials.length : Int) - 1) = 0 ∧
    carouselPrev testimonials.length 0 = (testimonials.length : Int) - 1 := by
  have hlen : (testimonials.length : Int) = 4 := rfl
  rw [hlen] at hlt ⊢
  have hlen4 : testimonials.length = 4 := rfl
  rw [hlen4]
  interval_cases i <;> decide

/-- C8 witness: the cycle property at index `2`. -/
theorem carousel_index_cycles_witness :
    (0 : Int) ≤ 2 ∧ (2 : Int) < (testimonials.length : Int) ∧
    ((carouselNext testimonials.length 2 = (2 + 1) % (testimonials.length : Int) ∧
       carouselPrev testimonials.length 2 =
         (2 - 1 + (testimonials.length : Int)) % (testimonials.length : Int) ∧
       0 ≤ carouselNext testimonials.length 2 ∧
       carouselNext testimonials.length 2 < (testimonials.length : Int) ∧
       0 ≤ carouselPrev testimonials.length 2 ∧
       carouselPrev testimonials.length 2 < (testimonials.length : Int)) ∧
      carouselNext testimonials.length ((testimonials.length : Int) - 1) = 0 ∧
      carouselPrev testimonials.length 0 = (testimonials.length : Int) - 1) :=
  ⟨by decide, by decide, carousel_index_cycles 2 (by decide) (by decide)⟩
